import Mathlib

/-!
Verification of the Privilege & Access-Control Orchestration Core of the
`user-manager` repository.

The definitions below are shallow embeddings of the Python source files

  * `server/app/business/services/privilege_service.py`
  * `server/app/business/services/profile_service.py`
  * `server/app/business/utils/permission_checker.py`
  * `server/app/data/oracle/privilege_dao.py`
  * `server/app/data/oracle/profile_dao.py`

Database state (rows of the catalog views `dba_sys_privs`, `dba_role_privs`,
`dba_profiles`) is passed explicitly; the command executor is modelled as a
recorder that appends the generated command text to a trace, so "performs
zero I/O" is expressed as "the trace is empty".  Python string functions are
modelled for ASCII strings (all identifiers handled by the service are
ASCII): `str.upper` maps basic-latin letters via `Char.toUpper`.
-/

namespace UserManager

/-- Embedding of Python `str.upper()` (ASCII range, which is all the
source feeds it): each character is upper-cased. -/
def pyUpper (s : String) : String := ⟨s.data.map Char.toUpper⟩

/-- Characters accepted by Python `str.strip()` / `int()` whitespace
stripping (ASCII whitespace). -/
def isPyWs (c : Char) : Bool :=
  c = ' ' || c = '\t' || c = '\n' || c = '\r' || c = '\x0b' || c = '\x0c'

/-- Strip leading and trailing whitespace from a character list, as Python
`str.strip()` does. -/
def pyStripWs (cs : List Char) : List Char :=
  ((cs.dropWhile isPyWs).reverse.dropWhile isPyWs).reverse

/-- Tail character class of the identifier pattern
`[a-zA-Z0-9_$#]` used by `PrivilegeService._validate_identifier`. -/
def identTailChar (c : Char) : Bool :=
  c.isAlphanum || c = '_' || c = '$' || c = '#'

/-- Tail character class `[a-zA-Z0-9_]` of the profile-name pattern used by
`ProfileService._validate_profile_name`. -/
def profileTailChar (c : Char) : Bool :=
  c.isAlphanum || c = '_'

/-- Python `re` semantics of `cls* $` in non-MULTILINE mode: the star
consumes characters of the class `cls`, and `$` matches at the end of the
string or just before one newline that ends the string.  Since the classes
used in the source never contain a newline, greedy matching with
backtracking coincides with this recursion. -/
def matchStarDollar (cls : Char → Bool) : List Char → Bool
  | [] => true
  | [c] => c = '\n' || cls c
  | c :: rest => cls c && matchStarDollar cls rest

/-- Python `re.match(r'^[hd][cls]*$', s)` truthiness for a one-character
head class `hd` and tail class `cls`. -/
def pyReMatch (hd cls : Char → Bool) : List Char → Bool
  | [] => false
  | c :: rest => hd c && matchStarDollar cls rest

/-- Embedding of `PrivilegeService._validate_identifier`:
`bool(re.match(r'^[a-zA-Z][a-zA-Z0-9_$#]*$', name))`. -/
def validate_identifier (name : String) : Bool :=
  pyReMatch Char.isAlpha identTailChar name.data

/-- Embedding of `ProfileService._validate_profile_name`:
`bool(re.match(r'^[a-zA-Z][a-zA-Z0-9_]*$', profile_name))`. -/
def validate_profile_name (name : String) : Bool :=
  pyReMatch Char.isAlpha profileTailChar name.data

/-- The identifier grammar of the specification, taken as a full-string
match: a letter followed by letters/digits/underscore/dollar/hash, with no
other characters. -/
def identGrammar : List Char → Bool
  | [] => false
  | c :: rest => c.isAlpha && rest.all identTailChar

/-- Numeric value of an ASCII digit, as computed by CPython's integer
parser (`ord(c) - ord('0')`). -/
def digitVal (c : Char) : Nat := c.toNat - 48

/-- Digit-run loop of CPython `int(str)`: after an initial digit, digits
may follow, and a single underscore may stand between two digits. -/
def goDigits (acc : Nat) : List Char → Option Nat
  | [] => some acc
  | c :: rest =>
    if c.isDigit then goDigits (10 * acc + digitVal c) rest
    else if c = '_' then
      match rest with
      | [] => none
      | r :: rs => if r.isDigit then goDigits (10 * acc + digitVal r) rs else none
    else none

/-- Digit part of CPython `int(str)`: at least one digit, then the
digit/underscore loop. -/
def digitsStart : List Char → Option Nat
  | [] => none
  | c :: rest => if c.isDigit then goDigits (digitVal c) rest else none

/-- Sign handling of CPython `int(str)` after whitespace stripping. -/
def pyIntCore (cs : List Char) : Option Int :=
  match cs with
  | [] => none
  | c :: rest =>
    if c = '+' then (digitsStart rest).map Int.ofNat
    else if c = '-' then (digitsStart rest).map (fun n => -(Int.ofNat n))
    else (digitsStart cs).map Int.ofNat

/-- Embedding of CPython `int(value)` on ASCII strings: optional
surrounding whitespace, an optional sign, then decimal digits in which a
single underscore may separate two digits.  `none` models `ValueError`. -/
def pyInt (value : String) : Option Int := pyIntCore (pyStripWs value.data)

/-- Embedding of `ProfileService._validate_resource_limit`: `True` for
`value.upper()` in `("UNLIMITED", "DEFAULT")`, else `int(value) > 0` with
`ValueError` mapped to `False`. -/
def validate_resource_limit (value : String) : Bool :=
  if pyUpper value = "UNLIMITED" || pyUpper value = "DEFAULT" then true
  else
    match pyInt value with
    | some n => decide (0 < n)
    | none => false

/-- Embedding of `ProfileService._normalize_resource_limit`. -/
def normalize_resource_limit (value : String) : String :=
  let upperVal := ⟨pyStripWs (pyUpper value).data⟩
  if upperVal = "UNLIMITED" || upperVal = "DEFAULT" then upperVal
  else ⟨pyStripWs value.data⟩

/-- Well-formed digit run of the spec-side numeral grammar:
`digit (digit | underscore digit)*`, stated independently of the numeric
value computed by `goDigits`. -/
def numeralTail : List Char → Bool
  | [] => true
  | c :: rest =>
    if c.isDigit then numeralTail rest
    else if c = '_' then
      match rest with
      | [] => false
      | r :: rs => r.isDigit && numeralTail rs
    else false

/-- Spec-side numeral grammar: a non-empty digit run with single
underscores allowed between digits. -/
def numeralBody : List Char → Bool
  | [] => false
  | c :: rest => c.isDigit && numeralTail rest

/-- Some character of the list is a digit other than `0`. -/
def hasNonzeroDigit (cs : List Char) : Bool :=
  cs.any (fun c => c.isDigit && !(c = '0'))

/-- Spec-side description of the strings whose Python `int` value is a
positive integer: after whitespace stripping, an optional plus sign, a
well-formed digit run containing a nonzero digit; a minus sign never
yields a positive value. -/
def pyPosNumeral (cs : List Char) : Bool :=
  match cs with
  | [] => false
  | c :: rest =>
    if c = '+' then numeralBody rest && hasNonzeroDigit rest
    else if c = '-' then false
    else numeralBody cs && hasNonzeroDigit cs

/-! ## Catalog state and the privilege DAO -/

/-- Rows of the two catalog views consulted by `PrivilegeDAO.has_privilege`:
`sysPrivs` holds `(grantee, privilege)` rows of `dba_sys_privs`, and
`rolePrivs` holds `(grantee, granted_role)` rows of `dba_role_privs`. -/
structure Catalog where
  sysPrivs : List (String × String)
  rolePrivs : List (String × String)

/-- Query interface used by `PrivilegeDAO.has_privilege`: the two
`SELECT COUNT(*)` statements it issues.  A result of `.error e` models the
database driver raising an exception with message `e`. -/
structure PrivQueries where
  countDirect : String → String → Except String Nat
  countViaRole : String → String → Except String Nat

/-- Embedding of `PrivilegeDAO.has_privilege`: count direct rows of
`dba_sys_privs` for the uppercased username; if none, count rows whose
grantee is any role granted to the username.  The whole body sits in a
`try`/`except Exception: return True`, so any raising query yields `true`. -/
def has_privilege (q : PrivQueries) (username privilege : String) : Bool :=
  match q.countDirect (pyUpper username) privilege with
  | .error _ => true
  | .ok n =>
    if 0 < n then true
    else
      match q.countViaRole (pyUpper username) privilege with
      | .error _ => true
      | .ok m => decide (0 < m)

/-- The two queries of `has_privilege` evaluated against an explicit
catalog state, never raising: the first counts `dba_sys_privs` rows with
`grantee = :username AND privilege = :privilege`; the second counts
`dba_sys_privs` rows whose grantee is in
`SELECT granted_role FROM dba_role_privs WHERE grantee = :username`. -/
def catQueries (cat : Catalog) : PrivQueries where
  countDirect u p :=
    .ok (cat.sysPrivs.filter (fun r => r.1 = u && r.2 = p)).length
  countViaRole u p :=
    .ok (cat.sysPrivs.filter
      (fun r => r.2 = p &&
        (cat.rolePrivs.filter (fun g => g.1 = u)).any (fun g => g.2 = r.1))).length

/-- Spec-side reading of a direct grant: the row `(u, p)` is in
`dba_sys_privs`. -/
def holdsDirectly (cat : Catalog) (u p : String) : Prop :=
  (u, p) ∈ cat.sysPrivs

/-- Spec-side reading of a one-hop grant: some role granted directly to
`u` holds `p` as a system privilege. -/
def holdsOneHop (cat : Catalog) (u p : String) : Prop :=
  ∃ r ∈ cat.rolePrivs, r.1 = u ∧ (r.2, p) ∈ cat.sysPrivs

instance (cat : Catalog) (u p : String) : Decidable (holdsDirectly cat u p) :=
  inferInstanceAs (Decidable ((u, p) ∈ cat.sysPrivs))

instance (cat : Catalog) (u p : String) : Decidable (holdsOneHop cat u p) :=
  inferInstanceAs (Decidable (∃ r ∈ cat.rolePrivs, r.1 = u ∧ (r.2, p) ∈ cat.sysPrivs))

/-! ## Permission checker -/

/-- Embedding of the module-level `REQUIRED_PRIVILEGES` dict of
`permission_checker.py` (insertion order preserved, keys distinct). -/
def REQUIRED_PRIVILEGES : List (String × List String) :=
  [("create_user", ["CREATE USER"]),
   ("alter_user", ["ALTER USER"]),
   ("drop_user", ["DROP USER"]),
   ("create_profile", ["CREATE PROFILE"]),
   ("alter_profile", ["ALTER PROFILE"]),
   ("drop_profile", ["DROP PROFILE"]),
   ("create_role", ["CREATE ROLE"]),
   ("alter_role", ["ALTER ANY ROLE"]),
   ("drop_role", ["DROP ANY ROLE"]),
   ("grant_role", ["GRANT ANY ROLE"]),
   ("login", ["CREATE SESSION"]),
   ("select_any_table", ["SELECT ANY TABLE"]),
   ("grant_system_privilege", ["GRANT ANY PRIVILEGE"])]

/-- Outcome of `PermissionChecker.check_permission`: a returned boolean,
or a raised `PermissionError`. -/
inductive CheckResult where
  | ok (granted : Bool)
  | raisedError
  deriving DecidableEq, Repr

/-- The `for priv in required_privs` loop of `check_permission`, paired
with the number of `has_privilege` calls (catalog consultations) made. -/
def checkLoop (q : PrivQueries) (username : String) : List String → Bool × Nat
  | [] => (false, 0)
  | p :: rest =>
    if has_privilege q username p then (true, 1)
    else
      let r := checkLoop q username rest
      (r.1, r.2 + 1)

/-- Embedding of `PermissionChecker.check_permission`.  The second
component counts the `has_privilege` calls issued, so `0` means the
catalog was never consulted. -/
def check_permission (q : PrivQueries) (username action : String)
    (raiseError : Bool) : CheckResult × Nat :=
  let required := (List.lookup action REQUIRED_PRIVILEGES).getD []
  if required.isEmpty then (.ok true, 0)
  else if pyUpper username = "SYS" || pyUpper username = "SYSTEM" then (.ok true, 0)
  else
    let r := checkLoop q username required
    if r.1 then (.ok true, r.2)
    else ((if raiseError then .raisedError else .ok false), r.2)

/-! ## Grant/Revoke Orchestrator (`privilege_service.py`)

Each operation returns the domain-error outcome together with the list of
command texts handed to the executor (`cursor.execute`).  The executor is
modelled as an always-accepting recorder, which suffices for the
validation-ordering claims; an empty trace means no I/O was performed. -/

/-- Validation errors raised by the privilege service (`ValueError`s in
the source, distinguished here by their message):
`invalidIdentifier` = "Tên người được cấp không hợp lệ",
`invalidPrivilege` = invalid privilege/role name,
`missingOperand` = required operand absent/empty. -/
inductive PrivError where
  | invalidIdentifier
  | invalidPrivilege
  | missingOperand
  deriving DecidableEq, Repr

/-- `PrivilegeService.OBJECT_PRIVILEGES`. -/
def OBJECT_PRIVILEGES : List String := ["SELECT", "INSERT", "UPDATE", "DELETE"]

/-- `PrivilegeService.COLUMN_PRIVILEGES`. -/
def COLUMN_PRIVILEGES : List String := ["SELECT", "INSERT"]

/-- DDL text built by `PrivilegeDAO.grant_system_privilege_ddl`. -/
def grant_system_privilege_ddl (privilege grantee : String) (withAdmin : Bool) : String :=
  let ddl := "GRANT " ++ privilege ++ " TO " ++ pyUpper grantee
  if withAdmin then ddl ++ " WITH ADMIN OPTION" else ddl

/-- DDL text built by `PrivilegeDAO.revoke_system_privilege_ddl`. -/
def revoke_system_privilege_ddl (privilege grantee : String) : String :=
  "REVOKE " ++ privilege ++ " FROM " ++ pyUpper grantee

/-- DDL text built by `PrivilegeDAO.grant_role_ddl`. -/
def grant_role_ddl (role grantee : String) (withAdmin : Bool) : String :=
  let ddl := "GRANT " ++ pyUpper role ++ " TO " ++ pyUpper grantee
  if withAdmin then ddl ++ " WITH ADMIN OPTION" else ddl

/-- DDL text built by `PrivilegeDAO.revoke_role_ddl`. -/
def revoke_role_ddl (role grantee : String) : String :=
  "REVOKE " ++ pyUpper role ++ " FROM " ++ pyUpper grantee

/-- DDL text built by `PrivilegeDAO.grant_object_privilege_ddl`. -/
def grant_object_privilege_ddl (privilege owner tableName grantee : String)
    (withGrantOption : Bool) : String :=
  let ddl := "GRANT " ++ privilege ++ " ON \"" ++ pyUpper owner ++ "\".\"" ++
    pyUpper tableName ++ "\" TO " ++ pyUpper grantee
  if withGrantOption then ddl ++ " WITH GRANT OPTION" else ddl

/-- DDL text built by `PrivilegeDAO.revoke_object_privilege_ddl`. -/
def revoke_object_privilege_ddl (privilege owner tableName grantee : String) : String :=
  "REVOKE " ++ privilege ++ " ON \"" ++ pyUpper owner ++ "\".\"" ++
    pyUpper tableName ++ "\" FROM " ++ pyUpper grantee

/-- Python `sep.join(parts)`. -/
def joinSep (sep : String) : List String → String
  | [] => ""
  | [x] => x
  | x :: xs => x ++ sep ++ joinSep sep xs

/-- Column list rendering shared by the column-privilege DDL builders:
`", ".join(f'"{c.upper()}"' for c in columns)`. -/
def columnListText (columns : List String) : String :=
  joinSep ", " (columns.map (fun c => "\"" ++ pyUpper c ++ "\""))

/-- DDL text built by `PrivilegeDAO.grant_column_privilege_ddl`. -/
def grant_column_privilege_ddl (privilege owner tableName : String)
    (columns : List String) (grantee : String) : String :=
  "GRANT " ++ privilege ++ "(" ++ columnListText columns ++ ") ON \"" ++
    pyUpper owner ++ "\".\"" ++ pyUpper tableName ++ "\" TO " ++ pyUpper grantee

/-- DDL text built by `PrivilegeDAO.revoke_column_privilege_ddl`. -/
def revoke_column_privilege_ddl (privilege owner tableName : String)
    (columns : List String) (grantee : String) : String :=
  "REVOKE " ++ privilege ++ "(" ++ columnListText columns ++ ") ON \"" ++
    pyUpper owner ++ "\".\"" ++ pyUpper tableName ++ "\" FROM " ++ pyUpper grantee

/-- Embedding of `PrivilegeService.grant_system_privilege`. -/
def grant_system_privilege (privilege grantee : String) (withAdmin : Bool) :
    Except PrivError Unit × List String :=
  if grantee = "" || !validate_identifier grantee then (.error .invalidIdentifier, [])
  else if privilege = "" then (.error .missingOperand, [])
  else (.ok (), [grant_system_privilege_ddl privilege grantee withAdmin])

/-- Embedding of `PrivilegeService.revoke_system_privilege`. -/
def revoke_system_privilege (privilege grantee : String) :
    Except PrivError Unit × List String :=
  if grantee = "" || !validate_identifier grantee then (.error .invalidIdentifier, [])
  else if privilege = "" then (.error .missingOperand, [])
  else (.ok (), [revoke_system_privilege_ddl privilege grantee])

/-- Embedding of `PrivilegeService.grant_role`. -/
def grant_role (role grantee : String) (withAdmin : Bool) :
    Except PrivError Unit × List String :=
  if grantee = "" || !validate_identifier grantee then (.error .invalidIdentifier, [])
  else if role = "" || !validate_identifier role then (.error .invalidPrivilege, [])
  else (.ok (), [grant_role_ddl role grantee withAdmin])

/-- Embedding of `PrivilegeService.revoke_role`. -/
def revoke_role (role grantee : String) : Except PrivError Unit × List String :=
  if grantee = "" || !validate_identifier grantee then (.error .invalidIdentifier, [])
  else if role = "" || !validate_identifier role then (.error .invalidPrivilege, [])
  else (.ok (), [revoke_role_ddl role grantee])

/-- Embedding of `PrivilegeService.grant_object_privilege`. -/
def grant_object_privilege (privilege owner tableName grantee : String)
    (withGrantOption : Bool) : Except PrivError Unit × List String :=
  if grantee = "" || !validate_identifier grantee then (.error .invalidIdentifier, [])
  else if !(OBJECT_PRIVILEGES.contains (pyUpper privilege)) then (.error .invalidPrivilege, [])
  else if owner = "" || tableName = "" then (.error .missingOperand, [])
  else (.ok (), [grant_object_privilege_ddl (pyUpper privilege) owner tableName grantee withGrantOption])

/-- Embedding of `PrivilegeService.revoke_object_privilege`: note the
source validates only the grantee here. -/
def revoke_object_privilege (privilege owner tableName grantee : String) :
    Except PrivError Unit × List String :=
  if grantee = "" || !validate_identifier grantee then (.error .invalidIdentifier, [])
  else (.ok (), [revoke_object_privilege_ddl (pyUpper privilege) owner tableName grantee])

/-- Embedding of `PrivilegeService.grant_column_privilege`. -/
def grant_column_privilege (privilege owner tableName : String)
    (columns : List String) (grantee : String) : Except PrivError Unit × List String :=
  if grantee = "" || !validate_identifier grantee then (.error .invalidIdentifier, [])
  else if !(COLUMN_PRIVILEGES.contains (pyUpper privilege)) then (.error .invalidPrivilege, [])
  else if columns = [] then (.error .missingOperand, [])
  else (.ok (), [grant_column_privilege_ddl (pyUpper privilege) owner tableName columns grantee])

/-- Embedding of `PrivilegeService.revoke_column_privilege`: note the
source validates only the grantee here. -/
def revoke_column_privilege (privilege owner tableName : String)
    (columns : List String) (grantee : String) : Except PrivError Unit × List String :=
  if grantee = "" || !validate_identifier grantee then (.error .invalidIdentifier, [])
  else (.ok (), [revoke_column_privilege_ddl (pyUpper privilege) owner tableName columns grantee])

/-! ## Profile service (`profile_service.py`, `profile_dao.py`) -/

/-- Validation errors raised by `ProfileService.create_profile`
(`ValueError`s in the source, distinguished by message). -/
inductive ProfileError where
  | invalidName
  | reservedName
  | alreadyExists
  | invalidLimit (which : String)
  deriving DecidableEq, Repr

/-- Embedding of `ProfileDAO.profile_exists` against the `profile` column
rows of `dba_profiles`: `SELECT COUNT(*) WHERE profile = :profile_name`
with the name uppercased. -/
def profile_exists (profiles : List String) (profileName : String) : Bool :=
  0 < (profiles.filter (fun p => p = pyUpper profileName)).length

/-- DDL text built by `ProfileDAO.create_profile_ddl`. -/
def create_profile_ddl (profileName sessionsPerUser connectTime idleTime : String) : String :=
  "CREATE PROFILE " ++ pyUpper profileName ++ " LIMIT" ++
    " SESSIONS_PER_USER " ++ sessionsPerUser ++
    " CONNECT_TIME " ++ connectTime ++
    " IDLE_TIME " ++ idleTime

/-- Embedding of `ProfileService.create_profile` over the existing profile
names of the catalog; the trace lists the DDL commands executed. -/
def create_profile (profiles : List String) (profileName : String)
    (sessionsPerUser connectTime idleTime : String) :
    Except ProfileError Unit × List String :=
  if !validate_profile_name profileName then (.error .invalidName, [])
  else if pyUpper profileName = "DEFAULT" then (.error .reservedName, [])
  else if profile_exists profiles profileName then (.error .alreadyExists, [])
  else if !validate_resource_limit sessionsPerUser then
    (.error (.invalidLimit "SESSIONS_PER_USER"), [])
  else if !validate_resource_limit connectTime then
    (.error (.invalidLimit "CONNECT_TIME"), [])
  else if !validate_resource_limit idleTime then
    (.error (.invalidLimit "IDLE_TIME"), [])
  else
    (.ok (), [create_profile_ddl profileName
      (normalize_resource_limit sessionsPerUser)
      (normalize_resource_limit connectTime)
      (normalize_resource_limit idleTime)])

/-- Catalog in which `SYS` reaches `CREATE USER` only through the
role-of-role chain `SYS → R1 → R2`, with `R2` holding the privilege. -/
def catTwoHop : Catalog :=
  ⟨[("R2", "CREATE USER")], [("SYS", "R1"), ("R1", "R2")]⟩

/-- Catalog in which `ANA` holds `CREATE USER` through the directly
granted role `R1` (one hop). -/
def catOneHop : Catalog :=
  ⟨[("R1", "CREATE USER")], [("ANA", "R1")]⟩

/-- Claim-side reading of a positive base-10 numeral: a non-empty string
of decimal digits whose denoted value is strictly positive. -/
def specPosNumeral (cs : List Char) : Bool :=
  !cs.isEmpty && cs.all Char.isDigit && hasNonzeroDigit cs

/-- C1: if a catalog query issued inside `PrivilegeDAO.has_privilege`
raises (the first query, or the second after the first completed), the
check returns `True`: the privilege check fails open. -/
theorem has_privilege_fails_open (q : PrivQueries) (username privilege : String)
    (h : (∃ e, q.countDirect (pyUpper username) privilege = .error e) ∨
         (∃ n e, q.countDirect (pyUpper username) privilege = .ok n ∧
            q.countViaRole (pyUpper username) privilege = .error e)) :
    has_privilege q username privilege = true := by
  rcases h with ⟨e, he⟩ | ⟨n, e, hok, he⟩
  · simp [has_privilege, he]
  · simp only [has_privilege, hok]
    split
    · rfl
    · simp [he]

/-- Witness for C1: a connection failure during the first query makes the
check report that `CLERK` holds `CREATE USER`. -/
theorem has_privilege_fails_open_witness :
    has_privilege ⟨fun _ _ => .error "ORA-12541", fun _ _ => .error "ORA-12541"⟩
      "CLERK" "CREATE USER" = true :=
  has_privilege_fails_open _ "CLERK" "CREATE USER" (Or.inl ⟨"ORA-12541", rfl⟩)

/-- C10: an action name absent from `REQUIRED_PRIVILEGES` is permitted
immediately for every principal, with zero catalog consultations. -/
theorem check_permission_unmapped_action (q : PrivQueries)
    (username action : String) (raiseError : Bool)
    (h : List.lookup action REQUIRED_PRIVILEGES = none) :
    check_permission q username action raiseError = (.ok true, 0) := by
  simp [check_permission, h]

/-- Witness for C10: the unmapped action name `delete_project` is
permitted for `CLERK` against an empty catalog, with no query issued. -/
theorem check_permission_unmapped_action_witness :
    check_permission (catQueries ⟨[], []⟩) "CLERK" "delete_project" true = (.ok true, 0) :=
  check_permission_unmapped_action _ "CLERK" "delete_project" true (by decide)

/-- C3, counterexample: `revoke_object_privilege` performs no privilege
validation, so the non-object privilege `TRUNCATE` is not rejected with
`InvalidPrivilege`; the revoke command is built and executed. -/
theorem revoke_object_unvalidated_cex :
    OBJECT_PRIVILEGES.contains (pyUpper "TRUNCATE") = false ∧
    revoke_object_privilege "TRUNCATE" "HR" "EMP" "CLERK" =
      (.ok (), ["REVOKE TRUNCATE ON \"HR\".\"EMP\" FROM CLERK"]) := by
  exact ⟨rfl, rfl⟩

/-- C3, amended: for a valid grantee and a privilege whose upper-casing is
outside {SELECT, INSERT, UPDATE, DELETE}, `grant_object_privilege` raises
`InvalidPrivilege` before any command is built or executed, while
`revoke_object_privilege` performs no privilege validation and executes
the revoke command unconditionally. -/
theorem object_privilege_validation_amended
    (privilege owner tableName grantee : String) (withGrantOption : Bool)
    (hg : validate_identifier grantee = true)
    (hp : OBJECT_PRIVILEGES.contains (pyUpper privilege) = false) :
    grant_object_privilege privilege owner tableName grantee withGrantOption =
      (.error .invalidPrivilege, []) ∧
    revoke_object_privilege privilege owner tableName grantee =
      (.ok (), [revoke_object_privilege_ddl (pyUpper privilege) owner tableName grantee]) := by
  have hne : ¬(grantee = "") := by
    intro h
    rw [h] at hg
    exact absurd hg (by decide)
  have hp' : ¬(pyUpper privilege ∈ OBJECT_PRIVILEGES) := by
    simpa using hp
  constructor
  · simp [grant_object_privilege, hg, hne, hp']
  · simp [revoke_object_privilege, hg, hne]

/-- Witness for C3's amended theorem at privilege `TRUNCATE`, grantee
`CLERK`. -/
theorem object_privilege_validation_amended_witness :
    grant_object_privilege "TRUNCATE" "HR" "EMP" "CLERK" false =
      (.error .invalidPrivilege, []) ∧
    revoke_object_privilege "TRUNCATE" "HR" "EMP" "CLERK" =
      (.ok (), [revoke_object_privilege_ddl (pyUpper "TRUNCATE") "HR" "EMP" "CLERK"]) :=
  object_privilege_validation_amended "TRUNCATE" "HR" "EMP" "CLERK" false
    (by decide) (by decide)

/-- C4, counterexample: the grantee `"CLERK\n"` does not match the
identifier grammar as a full string, yet every operation accepts it
(Python `re.match` lets `$` match before one trailing newline) and the
grant command is built and executed. -/
theorem grantee_trailing_newline_cex :
    identGrammar (String.data "CLERK\n") = false ∧
    grant_system_privilege "CREATE SESSION" "CLERK\n" false =
      (.ok (), ["GRANT CREATE SESSION TO CLERK\n"]) := by
  exact ⟨rfl, rfl⟩

/-- C4, amended: for every grantee rejected by the source validator
(equivalently, not matching the grammar even with one optional trailing
newline), each of the eight grant/revoke operations raises
`InvalidIdentifier` with an empty command trace (zero I/O). -/
theorem invalid_grantee_rejected_amended
    (privilege role owner tableName grantee : String)
    (columns : List String) (flag : Bool)
    (hg : validate_identifier grantee = false) :
    grant_system_privilege privilege grantee flag = (.error .invalidIdentifier, []) ∧
    revoke_system_privilege privilege grantee = (.error .invalidIdentifier, []) ∧
    grant_role role grantee flag = (.error .invalidIdentifier, []) ∧
    revoke_role role grantee = (.error .invalidIdentifier, []) ∧
    grant_object_privilege privilege owner tableName grantee flag =
      (.error .invalidIdentifier, []) ∧
    revoke_object_privilege privilege owner tableName grantee =
      (.error .invalidIdentifier, []) ∧
    grant_column_privilege privilege owner tableName columns grantee =
      (.error .invalidIdentifier, []) ∧
    revoke_column_privilege privilege owner tableName columns grantee =
      (.error .invalidIdentifier, []) := by
  refine ⟨?_, ?_, ?_, ?_, ?_, ?_, ?_, ?_⟩ <;>
    simp [grant_system_privilege, revoke_system_privilege, grant_role, revoke_role,
      grant_object_privilege, revoke_object_privilege, grant_column_privilege,
      revoke_column_privilege, hg]

/-- Witness for C4's amended theorem at the malformed grantee `2BAD`. -/
theorem invalid_grantee_rejected_amended_witness :
    grant_system_privilege "CREATE SESSION" "2BAD" false =
      (.error .invalidIdentifier, []) :=
  (invalid_grantee_rejected_amended "CREATE SESSION" "R" "HR" "EMP" "2BAD" ["ID"] false
    (by decide)).1

/-- C5, counterexample: a column-class grant with empty owner and table
name is not rejected with `MissingOperand`; the command is built and
executed. -/
theorem missing_operand_unchecked_cex :
    grant_column_privilege "SELECT" "" "" ["ID"] "CLERK" =
      (.ok (), ["GRANT SELECT(\"ID\") ON \"\".\"\" TO CLERK"]) := by
  exact rfl

/-- C5, amended: only `grant_object_privilege` rejects an empty owner or
table name with `MissingOperand`; `grant_column_privilege` raises
`MissingOperand` only for an empty column list and otherwise proceeds for
any owner/table (empty included); the two revoke operations perform no
operand checks at all and always execute their command once the grantee
validates. -/
theorem missing_operand_checks_amended :
    (∀ (privilege owner tableName grantee : String) (wgo : Bool),
      validate_identifier grantee = true →
      OBJECT_PRIVILEGES.contains (pyUpper privilege) = true →
      (owner = "" ∨ tableName = "") →
      grant_object_privilege privilege owner tableName grantee wgo =
        (.error .missingOperand, [])) ∧
    (∀ (privilege owner tableName grantee : String),
      validate_identifier grantee = true →
      COLUMN_PRIVILEGES.contains (pyUpper privilege) = true →
      grant_column_privilege privilege owner tableName [] grantee =
        (.error .missingOperand, [])) ∧
    (∀ (privilege owner tableName grantee : String) (columns : List String),
      validate_identifier grantee = true →
      COLUMN_PRIVILEGES.contains (pyUpper privilege) = true →
      columns ≠ [] →
      grant_column_privilege privilege owner tableName columns grantee =
        (.ok (), [grant_column_privilege_ddl (pyUpper privilege) owner tableName columns grantee])) ∧
    (∀ (privilege owner tableName grantee : String),
      validate_identifier grantee = true →
      revoke_object_privilege privilege owner tableName grantee =
        (.ok (), [revoke_object_privilege_ddl (pyUpper privilege) owner tableName grantee])) ∧
    (∀ (privilege owner tableName grantee : String) (columns : List String),
      validate_identifier grantee = true →
      revoke_column_privilege privilege owner tableName columns grantee =
        (.ok (), [revoke_column_privilege_ddl (pyUpper privilege) owner tableName columns grantee])) := by
  have hne : ∀ g : String, validate_identifier g = true → ¬(g = "") := by
    intro g hv h
    rw [h] at hv
    exact absurd hv (by decide)
  refine ⟨?_, ?_, ?_, ?_, ?_⟩
  · intro privilege owner tableName grantee wgo hg hp hmiss
    have hp' : pyUpper privilege ∈ OBJECT_PRIVILEGES := by simpa using hp
    simp [grant_object_privilege, hg, hne _ hg, hp', hmiss]
  · intro privilege owner tableName grantee hg hp
    have hp' : pyUpper privilege ∈ COLUMN_PRIVILEGES := by simpa using hp
    simp [grant_column_privilege, hg, hne _ hg, hp']
  · intro privilege owner tableName grantee columns hg hp hcols
    have hp' : pyUpper privilege ∈ COLUMN_PRIVILEGES := by simpa using hp
    simp [grant_column_privilege, hg, hne _ hg, hp', hcols]
  · intro privilege owner tableName grantee hg
    simp [revoke_object_privilege, hg, hne _ hg]
  · intro privilege owner tableName grantee columns hg
    simp [revoke_column_privilege, hg, hne _ hg]

/-- Witness for C5's amended theorem: an object grant with empty owner is
rejected with `MissingOperand` and no command is executed. -/
theorem missing_operand_checks_amended_witness :
    grant_object_privilege "SELECT" "" "EMP" "CLERK" false =
      (.error .missingOperand, []) :=
  missing_operand_checks_amended.1 "SELECT" "" "EMP" "CLERK" false
    (by decide) (by decide) (Or.inl rfl)

/-- C6, counterexample: the generated column-grant command is not the
claimed text `GRANT SELECT(ID,NAME) ON HR.EMPLOYEES TO CLERK` — the
builder double-quotes every identifier and separates columns with a comma
and a space. -/
theorem column_grant_ddl_text_cex :
    grant_column_privilege_ddl "SELECT" "HR" "EMPLOYEES" ["id", "name"] "CLERK" ≠
      "GRANT SELECT(ID,NAME) ON HR.EMPLOYEES TO CLERK" := by
  decide

/-- C6, amended: granting column privilege `SELECT` on columns
`["id", "name"]` of `HR.EMPLOYEES` to `CLERK` produces exactly
`GRANT SELECT("ID", "NAME") ON "HR"."EMPLOYEES" TO CLERK`. -/
theorem column_grant_ddl_text_amended :
    grant_column_privilege_ddl "SELECT" "HR" "EMPLOYEES" ["id", "name"] "CLERK" =
      "GRANT SELECT(\"ID\", \"NAME\") ON \"HR\".\"EMPLOYEES\" TO CLERK" := by
  exact rfl

/-- C9, counterexample: the profile `DEFAULT` exists in the catalog, yet
`create_profile` on that name raises the reserved-name error, not the
already-exists error (no command is executed either way). -/
theorem create_profile_reserved_name_cex :
    profile_exists ["DEFAULT"] "DEFAULT" = true ∧
    create_profile ["DEFAULT"] "DEFAULT" "3" "UNLIMITED" "30" =
      (.error .reservedName, []) := by
  exact ⟨rfl, rfl⟩

/-- C9, amended: for a profile name that passes name validation and is
not the reserved name `DEFAULT`, if a profile with that name already
exists in the catalog then `create_profile` raises the already-exists
error and never attempts the `CREATE PROFILE` command. -/
theorem create_profile_already_exists_amended
    (profiles : List String) (profileName s c i : String)
    (hname : validate_profile_name profileName = true)
    (hres : pyUpper profileName ≠ "DEFAULT")
    (hex : profile_exists profiles profileName = true) :
    create_profile profiles profileName s c i = (.error .alreadyExists, []) := by
  simp [create_profile, hname, hres, hex]

/-- Witness for C9's amended theorem: creating `ANALYTICS` again when it
already exists fails with the already-exists error and no command. -/
theorem create_profile_already_exists_amended_witness :
    create_profile ["DEFAULT", "ANALYTICS"] "ANALYTICS" "3" "UNLIMITED" "30" =
      (.error .alreadyExists, []) :=
  create_profile_already_exists_amended ["DEFAULT", "ANALYTICS"] "ANALYTICS"
    "3" "UNLIMITED" "30" (by decide) (by decide) (by decide)

/-- A filtered list has positive length exactly when some element of the
original list satisfies the predicate (the `COUNT(*) > 0` reading of the
DAO queries). -/
theorem filter_length_pos_iff {α : Type} (l : List α) (p : α → Bool) :
    0 < (l.filter p).length ↔ ∃ a ∈ l, p a = true := by
  rw [List.length_pos]
  constructor
  · intro h
    match hfe : l.filter p with
    | [] => exact absurd hfe h
    | a :: rest =>
      have ha : a ∈ l.filter p := by rw [hfe]; exact List.mem_cons_self a rest
      rw [List.mem_filter] at ha
      exact ⟨a, ha.1, ha.2⟩
  · rintro ⟨a, ha, hp⟩ hnil
    have : a ∈ l.filter p := List.mem_filter.mpr ⟨ha, hp⟩
    rw [hnil] at this
    exact absurd this (List.not_mem_nil a)

/-- Over a pure catalog, `has_privilege` reports exactly the direct and
the one-hop grants. -/
theorem has_privilege_cat_iff (cat : Catalog) (username privilege : String) :
    has_privilege (catQueries cat) username privilege = true ↔
      holdsDirectly cat (pyUpper username) privilege ∨
      holdsOneHop cat (pyUpper username) privilege := by
  have hdir : 0 < (cat.sysPrivs.filter
      (fun r => r.1 = pyUpper username && r.2 = privilege)).length ↔
      holdsDirectly cat (pyUpper username) privilege := by
    rw [filter_length_pos_iff]
    constructor
    · rintro ⟨r, hr, hp⟩
      rw [Bool.and_eq_true, decide_eq_true_eq, decide_eq_true_eq] at hp
      have hrep : r = (pyUpper username, privilege) := Prod.ext hp.1 hp.2
      show (pyUpper username, privilege) ∈ cat.sysPrivs
      exact hrep ▸ hr
    · intro h
      exact ⟨(pyUpper username, privilege), h, by simp⟩
  have hhop : 0 < (cat.sysPrivs.filter
      (fun r => r.2 = privilege &&
        (cat.rolePrivs.filter (fun g => g.1 = pyUpper username)).any
          (fun g => g.2 = r.1))).length ↔
      holdsOneHop cat (pyUpper username) privilege := by
    rw [filter_length_pos_iff]
    constructor
    · rintro ⟨r, hr, hp⟩
      rw [Bool.and_eq_true, decide_eq_true_eq] at hp
      obtain ⟨hp2, hany⟩ := hp
      rw [List.any_eq_true] at hany
      obtain ⟨g, hg, hgr⟩ := hany
      rw [List.mem_filter, decide_eq_true_eq] at hg
      rw [decide_eq_true_eq] at hgr
      refine ⟨g, hg.1, hg.2, ?_⟩
      have hrep : r = (g.2, privilege) := Prod.ext hgr.symm hp2
      exact hrep ▸ hr
    · rintro ⟨g, hg, hgu, hgp⟩
      refine ⟨(g.2, privilege), hgp, ?_⟩
      rw [Bool.and_eq_true, decide_eq_true_eq]
      refine ⟨rfl, ?_⟩
      rw [List.any_eq_true]
      exact ⟨g, List.mem_filter.mpr ⟨hg, by simp [hgu]⟩, by simp⟩
  simp only [has_privilege, catQueries]
  by_cases hd : 0 < (cat.sysPrivs.filter
      (fun r => r.1 = pyUpper username && r.2 = privilege)).length
  · simp only [if_pos hd, true_iff]
    exact Or.inl (hdir.mp hd)
  · simp only [if_neg hd]
    rw [decide_eq_true_eq, hhop]
    constructor
    · exact Or.inr
    · rintro (h | h)
      · exact absurd (hdir.mpr h) hd
      · exact h

/-- The permission loop succeeds exactly when some required privilege
passes `has_privilege`. -/
theorem checkLoop_fst_iff (q : PrivQueries) (username : String) (l : List String) :
    (checkLoop q username l).1 = true ↔ ∃ p ∈ l, has_privilege q username p = true := by
  induction l with
  | nil => simp [checkLoop]
  | cons p rest ih =>
    by_cases h : has_privilege q username p = true
    · simp [checkLoop, h]
    · simp only [checkLoop, if_neg h]
      rw [ih]
      constructor
      · rintro ⟨a, ha, hp⟩
        exact ⟨a, List.mem_cons_of_mem p ha, hp⟩
      · rintro ⟨a, ha, hp⟩
        rcases List.mem_cons.mp ha with rfl | ha
        · exact absurd hp h
        · exact ⟨a, ha, hp⟩

/-- C2, amended: for a principal other than the bypass accounts (those
whose upper-cased name is `SYS` or `SYSTEM`) and an action mapped to a
non-empty required-privilege list, `check_permission` permits exactly
when some required privilege is held directly or through a role granted
directly to the principal (one hop); otherwise — in particular when the
only path to the privilege is a role granted to another role — it returns
`False` or raises, per the flag.  The bypass accounts are always
permitted, which is why the claim as stated fails for them. -/
theorem check_permission_one_hop_only
    (cat : Catalog) (username action : String) (raiseError : Bool)
    (required : List String)
    (hmap : List.lookup action REQUIRED_PRIVILEGES = some required)
    (hne : required ≠ [])
    (hsys : pyUpper username ≠ "SYS" ∧ pyUpper username ≠ "SYSTEM") :
    ((check_permission (catQueries cat) username action raiseError).1 = .ok true ↔
      ∃ p ∈ required, holdsDirectly cat (pyUpper username) p ∨
        holdsOneHop cat (pyUpper username) p) ∧
    ((∀ p ∈ required, ¬holdsDirectly cat (pyUpper username) p ∧
        ¬holdsOneHop cat (pyUpper username) p) →
      (check_permission (catQueries cat) username action raiseError).1 =
        (if raiseError then CheckResult.raisedError else .ok false)) := by
  have hbody : check_permission (catQueries cat) username action raiseError =
      (let r := checkLoop (catQueries cat) username required
       if r.1 then (.ok true, r.2)
       else ((if raiseError then .raisedError else .ok false), r.2)) := by
    simp [check_permission, hmap, hne, hsys.1, hsys.2, List.isEmpty_iff]
  constructor
  · rw [hbody]
    by_cases hl : (checkLoop (catQueries cat) username required).1 = true
    · simp only [hl, if_true]
      rw [checkLoop_fst_iff] at hl
      simp only [true_iff]
      obtain ⟨p, hp, hpriv⟩ := hl
      exact ⟨p, hp, (has_privilege_cat_iff cat username p).mp hpriv⟩
    · simp only [Bool.not_eq_true] at hl
      simp only [hl, if_false]
      constructor
      · intro h
        cases raiseError <;> simp at h
      · rintro ⟨p, hp, hpriv⟩
        have : (checkLoop (catQueries cat) username required).1 = true :=
          (checkLoop_fst_iff _ _ _).mpr
            ⟨p, hp, (has_privilege_cat_iff cat username p).mpr hpriv⟩
        rw [this] at hl
        exact absurd hl (by simp)
  · intro hnone
    rw [hbody]
    have hl : ¬((checkLoop (catQueries cat) username required).1 = true) := by
      rw [checkLoop_fst_iff]
      rintro ⟨p, hp, hpriv⟩
      rcases (has_privilege_cat_iff cat username p).mp hpriv with h | h
      · exact (hnone p hp).1 h
      · exact (hnone p hp).2 h
    simp only [Bool.not_eq_true] at hl
    simp [hl]

/-- C2, counterexample: `SYS` reaches `CREATE USER` only through the
second-hop chain `SYS → R1 → R2`, holding it neither directly nor through
a directly granted role, yet `check_permission` permits it in both modes
(super-administrator bypass), contradicting the claim's third case. -/
theorem check_permission_sys_bypass_cex :
    List.lookup "create_user" REQUIRED_PRIVILEGES = some ["CREATE USER"] ∧
    ¬holdsDirectly catTwoHop (pyUpper "SYS") "CREATE USER" ∧
    ¬holdsOneHop catTwoHop (pyUpper "SYS") "CREATE USER" ∧
    ("SYS", "R1") ∈ catTwoHop.rolePrivs ∧
    ("R1", "R2") ∈ catTwoHop.rolePrivs ∧
    ("R2", "CREATE USER") ∈ catTwoHop.sysPrivs ∧
    (check_permission (catQueries catTwoHop) "SYS" "create_user" false).1 = .ok true ∧
    (check_permission (catQueries catTwoHop) "SYS" "create_user" true).1 = .ok true := by
  refine ⟨by decide, by decide, by decide, by decide, by decide, by decide, rfl, rfl⟩

/-- Witness for C2's amended theorem: `ana` holds `CREATE USER` through
the directly granted role `R1`, so `create_user` is permitted. -/
theorem check_permission_one_hop_only_witness :
    (check_permission (catQueries catOneHop) "ana" "create_user" false).1 =
        .ok true ↔
      ∃ p ∈ ["CREATE USER"], holdsDirectly catOneHop (pyUpper "ana") p ∨
        holdsOneHop catOneHop (pyUpper "ana") p :=
  (check_permission_one_hop_only catOneHop "ana" "create_user" false
    ["CREATE USER"] (by decide) (by decide) (by decide)).1

/-- The embedded `cls* $` matcher accepts exactly the strings of class
characters, optionally followed by one final newline. -/
theorem matchStarDollar_iff (cls : Char → Bool) (cs : List Char) :
    matchStarDollar cls cs = true ↔
      (cs.all cls = true ∨ ∃ core, cs = core ++ ['\n'] ∧ core.all cls = true) := by
  induction cs with
  | nil => simp [matchStarDollar]
  | cons c rest ih =>
    cases rest with
    | nil =>
      constructor
      · intro h
        simp only [matchStarDollar] at h
        rw [Bool.or_eq_true, decide_eq_true_eq] at h
        rcases h with h | h
        · subst h
          exact Or.inr ⟨[], rfl, rfl⟩
        · exact Or.inl (by simp [h])
      · rintro (h | ⟨core, hco, hall⟩)
        · rw [List.all_cons, Bool.and_eq_true] at h
          simp [matchStarDollar, h.1]
        · cases core with
          | nil =>
            rw [List.nil_append] at hco
            injection hco with h1 h2
            simp [matchStarDollar, h1]
          | cons z zs =>
            rw [List.cons_append] at hco
            injection hco with h1 h2
            exact absurd (congrArg List.length h2) (by simp)
    | cons d rs =>
      simp only [matchStarDollar]
      rw [Bool.and_eq_true, ih]
      constructor
      · rintro ⟨hc, h | ⟨core, hco, hall⟩⟩
        · exact Or.inl (by simp [hc, h])
        · exact Or.inr ⟨c :: core, by simp [hco], by simp [hc, hall]⟩
      · rintro (h | ⟨core, hco, hall⟩)
        · rw [List.all_cons, Bool.and_eq_true] at h
          exact ⟨h.1, Or.inl h.2⟩
        · cases core with
          | nil =>
            rw [List.nil_append] at hco
            injection hco with h1 h2
            exact absurd (congrArg List.length h2) (by simp)
          | cons z zs =>
            rw [List.cons_append] at hco
            injection hco with h1 h2
            subst h1
            rw [List.all_cons, Bool.and_eq_true] at hall
            exact ⟨hall.1, Or.inr ⟨zs, h2, hall.2⟩⟩

/-- C7, counterexample: `"A\n"` does not match the identifier grammar as
a full string, yet the validator accepts it — Python `re.match` lets `$`
also match just before one newline that ends the string. -/
theorem validate_identifier_trailing_newline_cex :
    validate_identifier "A\n" = true ∧ identGrammar (String.data "A\n") = false := by
  exact ⟨rfl, rfl⟩

/-- C7, amended: `validate_identifier(name)` returns true iff `name`
matches `^[A-Za-z][A-Za-z0-9_$#]*$` as a full string, or does so after
removing exactly one trailing newline. -/
theorem validate_identifier_amended (name : String) :
    validate_identifier name = true ↔
      (identGrammar name.data = true ∨
       ∃ core, name.data = core ++ ['\n'] ∧ identGrammar core = true) := by
  have hv : validate_identifier name =
      pyReMatch Char.isAlpha identTailChar name.data := rfl
  rw [hv]
  cases hd : name.data with
  | nil => simp [pyReMatch, identGrammar]
  | cons c rest =>
    simp only [pyReMatch, identGrammar]
    rw [Bool.and_eq_true, matchStarDollar_iff]
    constructor
    · rintro ⟨hc, h | ⟨core, hco, hall⟩⟩
      · exact Or.inl (by simp [hc, h])
      · exact Or.inr ⟨c :: core, by simp [hco], by simp [hc, hall]⟩
    · rintro (h | ⟨core, hco, hall⟩)
      · rw [Bool.and_eq_true] at h
        exact ⟨h.1, Or.inl h.2⟩
      · cases core with
        | nil =>
          rw [List.nil_append] at hco
          injection hco with h1 h2
          subst h2
          exact absurd hall (by simp [h1])
        | cons z zs =>
          rw [List.cons_append] at hco
          injection hco with h1 h2
          subst h1
          have hall' : (c.isAlpha && zs.all identTailChar) = true := hall
          rw [Bool.and_eq_true] at hall'
          exact ⟨hall'.1, Or.inr ⟨zs, h2, hall'.2⟩⟩

/-- An ASCII digit has positive numeric value exactly when it is not the
digit zero. -/
theorem digit_pos_iff (c : Char) (h : c.isDigit = true) :
    0 < digitVal c ↔ ¬(c = '0') := by
  rw [Char.isDigit] at h
  rw [Bool.and_eq_true, decide_eq_true_eq, decide_eq_true_eq] at h
  have h1 : (48 : UInt32) ≤ c.val := h.1
  have h1' : 48 ≤ c.toNat := by
    rw [UInt32.le_def, BitVec.le_def] at h1
    exact h1
  constructor
  · intro hp heq
    subst heq
    exact absurd hp (by decide)
  · intro hne
    rcases Nat.lt_or_ge 48 c.toNat with hlt | hge
    · unfold digitVal
      omega
    · have he : c.toNat = 48 := Nat.le_antisymm hge h1'
      have hc : c = '0' := by
        apply Char.ext
        apply UInt32.toNat.inj
        exact he
      exact absurd hc hne

/-- The digit-run parser succeeds exactly on the well-formed
digit/underscore runs. -/
theorem goDigits_isSome (acc : Nat) (cs : List Char) :
    (goDigits acc cs).isSome = numeralTail cs := by
  induction acc, cs using goDigits.induct with
  | case1 acc => rfl
  | case2 acc c rest h ih =>
    rw [goDigits.eq_def, numeralTail.eq_def]
    simp only [h, if_true, if_pos]
    exact ih
  | case3 acc h => rfl
  | case4 acc c rest hdig h ih =>
    rw [goDigits.eq_def, numeralTail.eq_def]
    simp only [h, hdig, if_true, if_pos, if_neg, Bool.true_and]
    exact ih
  | case5 acc c rest hdig h =>
    rw [goDigits.eq_def, numeralTail.eq_def]
    simp [hdig, h]
  | case6 acc c rest hdig hus =>
    rw [goDigits.eq_def, numeralTail.eq_def]
    simp [hdig, hus]

/-- The value computed by the digit-run parser is positive exactly when
the accumulator already is, or some remaining digit is nonzero. -/
theorem goDigits_pos (acc : Nat) (cs : List Char) :
    ∀ n, goDigits acc cs = some n →
      (0 < n ↔ (0 < acc ∨ hasNonzeroDigit cs = true)) := by
  induction acc, cs using goDigits.induct with
  | case1 acc =>
    intro n hn
    injection hn with hn
    subst hn
    simp [hasNonzeroDigit]
  | case2 acc c rest h ih =>
    intro n hn
    rw [goDigits.eq_def] at hn
    simp only [h, if_pos] at hn
    rw [ih n hn]
    simp only [hasNonzeroDigit, List.any_cons, Bool.or_eq_true, Bool.and_eq_true, h,
      true_and, Bool.not_eq_true', decide_eq_false_iff_not]
    have harith : 0 < 10 * acc + digitVal c ↔ 0 < acc ∨ 0 < digitVal c := by omega
    rw [harith, digit_pos_iff c h, or_assoc]
  | case3 acc h =>
    intro n hn
    rw [goDigits.eq_def] at hn
    simp at hn
  | case4 acc c rest hdig h ih =>
    intro n hn
    rw [goDigits.eq_def] at hn
    simp only [h, hdig, if_pos, if_neg] at hn
    rw [ih n hn]
    have hu : ('_' : Char).isDigit = false := rfl
    simp only [hasNonzeroDigit, List.any_cons, Bool.or_eq_true, Bool.and_eq_true, hdig, hu,
      true_and, false_and, Bool.false_eq_true, false_or, Bool.not_eq_true',
      decide_eq_false_iff_not]
    have harith : 0 < 10 * acc + digitVal c ↔ 0 < acc ∨ 0 < digitVal c := by omega
    rw [harith, digit_pos_iff c hdig, or_assoc]
  | case5 acc c rest hdig h =>
    intro n hn
    rw [goDigits.eq_def] at hn
    simp [hdig, h] at hn
  | case6 acc c rest hdig hus =>
    intro n hn
    rw [goDigits.eq_def] at hn
    simp [hdig, hus] at hn

/-- The digit part of the embedded `int()` yields a positive value
exactly on well-formed numerals containing a nonzero digit. -/
theorem digitsStart_pos_iff (cs : List Char) :
    (∃ n, digitsStart cs = some n ∧ 0 < n) ↔
      (numeralBody cs = true ∧ hasNonzeroDigit cs = true) := by
  cases cs with
  | nil => simp [digitsStart, numeralBody]
  | cons c rest =>
    by_cases h : c.isDigit = true
    · have hds : digitsStart (c :: rest) = goDigits (digitVal c) rest := by
        simp [digitsStart, h]
      have hnb : numeralBody (c :: rest) = numeralTail rest := by
        simp [numeralBody, h]
      rw [hds, hnb]
      constructor
      · rintro ⟨n, hn, hpos⟩
        have hTail : numeralTail rest = true := by
          rw [← goDigits_isSome (digitVal c) rest, hn]
          rfl
        refine ⟨hTail, ?_⟩
        have hsplit := (goDigits_pos (digitVal c) rest n hn).mp hpos
        simp only [hasNonzeroDigit, List.any_cons, Bool.or_eq_true, Bool.and_eq_true, h,
          true_and, Bool.not_eq_true', decide_eq_false_iff_not]
        rcases hsplit with hd | hz
        · exact Or.inl ((digit_pos_iff c h).mp hd)
        · exact Or.inr (by simpa [hasNonzeroDigit] using hz)
      · rintro ⟨hTail, hz⟩
        have hsome : (goDigits (digitVal c) rest).isSome = true := by
          rw [goDigits_isSome, hTail]
        obtain ⟨n, hn⟩ := Option.isSome_iff_exists.mp hsome
        refine ⟨n, hn, ?_⟩
        rw [goDigits_pos (digitVal c) rest n hn]
        simp only [hasNonzeroDigit, List.any_cons, Bool.or_eq_true, Bool.and_eq_true, h,
          true_and, Bool.not_eq_true', decide_eq_false_iff_not] at hz
        rcases hz with hc0 | hz
        · exact Or.inl ((digit_pos_iff c h).mpr hc0)
        · exact Or.inr (by simpa [hasNonzeroDigit] using hz)
    · simp [digitsStart, numeralBody, h]

/-- Mapping `Int.ofNat` over an optional count preserves the
"positive value" reading. -/
theorem map_ofNat_pos_iff (o : Option Nat) :
    (∃ n : Int, o.map Int.ofNat = some n ∧ 0 < n) ↔ (∃ m, o = some m ∧ 0 < m) := by
  cases o with
  | none => simp
  | some m => simp [Int.ofNat_pos]

/-- The embedded `int()` core returns a positive integer exactly on the
spec-side positive numerals. -/
theorem pyIntCore_pos_iff (cs : List Char) :
    (∃ n : Int, pyIntCore cs = some n ∧ 0 < n) ↔ pyPosNumeral cs = true := by
  cases cs with
  | nil => simp [pyIntCore, pyPosNumeral]
  | cons c rest =>
    by_cases hplus : c = '+'
    · subst hplus
      have h1 : pyIntCore ('+' :: rest) = (digitsStart rest).map Int.ofNat := by
        simp [pyIntCore]
      have h2 : pyPosNumeral ('+' :: rest) = (numeralBody rest && hasNonzeroDigit rest) := by
        simp [pyPosNumeral]
      rw [h1, h2, Bool.and_eq_true, ← digitsStart_pos_iff]
      exact map_ofNat_pos_iff (digitsStart rest)
    · by_cases hminus : c = '-'
      · subst hminus
        have h1 : pyIntCore ('-' :: rest) =
            (digitsStart rest).map (fun m => -(Int.ofNat m)) := by
          simp [pyIntCore]
        have h2 : pyPosNumeral ('-' :: rest) = false := by
          simp [pyPosNumeral]
        rw [h1, h2]
        constructor
        · rintro ⟨n, hn, hpos⟩
          rw [Option.map_eq_some'] at hn
          obtain ⟨m, hm, hfm⟩ := hn
          have hfm' : -(Int.ofNat m) = n := hfm
          have hnn : (0 : Int) ≤ Int.ofNat m := Int.ofNat_nonneg m
          omega
        · intro h
          exact absurd h (by simp)
      · have h1 : pyIntCore (c :: rest) = (digitsStart (c :: rest)).map Int.ofNat := by
          simp [pyIntCore, hplus, hminus]
        have h2 : pyPosNumeral (c :: rest) =
            (numeralBody (c :: rest) && hasNonzeroDigit (c :: rest)) := by
          simp [pyPosNumeral, hplus, hminus]
        rw [h1, h2, Bool.and_eq_true, ← digitsStart_pos_iff]
        exact map_ofNat_pos_iff (digitsStart (c :: rest))

/-- C8, counterexample: `"+5"` is accepted by the validator (Python
`int()` accepts a sign), but it is neither of the two keywords nor a bare
base-10 numeral, so the claimed characterization fails at it. -/
theorem validate_resource_limit_plus_sign_cex :
    validate_resource_limit "+5" = true ∧
    pyUpper "+5" ≠ "UNLIMITED" ∧ pyUpper "+5" ≠ "DEFAULT" ∧
    specPosNumeral (String.data "+5") = false := by
  exact ⟨rfl, by decide, by decide, rfl⟩

/-- C8, amended: `validate_resource_limit(value)` returns true iff value
case-insensitively equals `UNLIMITED` or `DEFAULT`, or value — after
stripping surrounding whitespace — is an optionally plus-signed base-10
numeral (single underscores allowed between digits) containing a nonzero
digit, i.e. denoting an integer strictly greater than zero. -/
theorem validate_resource_limit_amended (value : String) :
    validate_resource_limit value = true ↔
      (pyUpper value = "UNLIMITED" ∨ pyUpper value = "DEFAULT" ∨
       pyPosNumeral (pyStripWs value.data) = true) := by
  by_cases h1 : pyUpper value = "UNLIMITED"
  · simp [validate_resource_limit, h1]
  · by_cases h2 : pyUpper value = "DEFAULT"
    · simp [validate_resource_limit, h2]
    · have hpy : pyInt value = pyIntCore (pyStripWs value.data) := rfl
      have hcond : (decide (pyUpper value = "UNLIMITED") ||
          decide (pyUpper value = "DEFAULT")) = false := by
        simp [h1, h2]
      simp only [validate_resource_limit, hcond, Bool.false_eq_true, if_false]
      simp only [h1, h2, false_or]
      rw [← pyIntCore_pos_iff, ← hpy]
      cases hv : pyInt value with
      | none => simp [hv]
      | some n => simp [hv]

end UserManager
